import Mathlib

/-!
Shallow embedding of `src/gfx/device/mod.rs` (the gfx device message-passing
core): the `Request`/`Reply` vocabulary, the `Client` facade, the `Server`
drain loop (`Server::update`) and the `init` entry point.

Modelling conventions:
* The backend `gl` module (handles `dev::Buffer`, `dev::ArrayBuffer`,
  `dev::Shader`, `dev::Program`, `dev::FrameBuffer`, and the `Device` type
  with its methods) is not part of the sources; per the spec (§3, §4.3) the
  handles are opaque identifiers and the Device Executor is an external
  capability, so handles are modelled as `Nat` and the executor as an
  explicit record of operations `DeviceOps` over an abstract state `D`.
* Machine integers (`u8`, `u16`, `u32`) only ever flow through this module
  unchanged (the sole casts, `count as u32` / `offset as u32`, are lossless
  widenings), so they are modelled as `Nat`.
* `f32` values are carried but never computed with; they are modelled as
  Lean `Float`.
* The `DuplexStream` transport is modelled from each side as explicit
  queues: the server sees an incoming `List Request` plus a `disconnected`
  flag (`try_recv` on an exhausted queue yields `Empty` when connected and
  `Disconnected` otherwise, matching `std::comm` channel semantics); the
  client side records the requests it has sent and the replies available
  to `recv`.
* Invocations on the external collaborators (device executor methods and
  the graphics context's `swap_buffers`) are recorded in an `Event` trace,
  in invocation order, alongside the threaded abstract device state.
-/

set_option autoImplicit false

namespace Gfx

/-- `pub type Color = [f32, ..4];` -/
abbrev Color := Float × Float × Float × Float

/-- `pub type VertexCount = u16;` (values only flow through, modelled as `Nat`). -/
abbrev VertexCount := Nat

/-- Modelled from the spec: `dev::Buffer` is an opaque handle minted by the
device executor (backend module absent from the sources). -/
abbrev Buffer := Nat

/-- Modelled from the spec: `dev::ArrayBuffer` opaque handle. -/
abbrev ArrayBuffer := Nat

/-- Modelled from the spec: `dev::Shader` opaque handle. -/
abbrev Shader := Nat

/-- Modelled from the spec: `dev::Program` opaque handle. -/
abbrev Program := Nat

/-- Modelled from the spec: `dev::FrameBuffer` opaque handle. -/
abbrev FrameBuffer := Nat

/-- `pub enum Request` — the command vocabulary sent from Client to Server. -/
inductive Request where
  | CallNewBuffer (data : List Float)
  | CallNewArrayBuffer
  | CallNewShader (kind : Char) (code : List Nat)
  | CallNewProgram (shaders : List Shader)
  | CastClear (color : Color)
  | CastBindProgram (prog : Program)
  | CastBindArrayBuffer (abuf : ArrayBuffer)
  | CastBindAttribute (index : Nat) (buf : Buffer) (count : VertexCount)
      (offset : Nat) (stride : Nat)
  | CastBindFrameBuffer (fbo : FrameBuffer)
  | CastDraw (offset : VertexCount) (count : VertexCount)
  | CastSwapBuffers

/-- `pub enum Reply` — one variant per Call command. -/
inductive Reply where
  | ReplyNewBuffer (h : Buffer)
  | ReplyNewArrayBuffer (h : ArrayBuffer)
  | ReplyNewShader (h : Shader)
  | ReplyNewProgram (h : Program)

open Request Reply

/-- Modelled from the spec: the Device Executor capability contract (§4.3),
over an abstract executor state `D`. Creation operations mint a handle and
may evolve the state; cast-handling operations evolve the state. The
`bind_attribute` operation takes `(slot, vertex_count, offset, stride)` —
no buffer handle — exactly as in §4.3. -/
structure DeviceOps (D : Type) where
  clear : D → Color → D
  bind_program : D → Program → D
  bind_array_buffer : D → ArrayBuffer → D
  bind_attribute : D → Nat → Nat → Nat → Nat → D
  bind_frame_buffer : D → FrameBuffer → D
  draw : D → Nat → Nat → D
  create_buffer : D → List Float → Buffer × D
  create_array_buffer : D → ArrayBuffer × D
  create_shader : D → Char → List Nat → Shader × D
  create_program : D → List Shader → Program × D

/-- One recorded invocation on an external collaborator: the device
executor's ten operations, plus the graphics context's `swap_buffers`. -/
inductive Event where
  | clear (color : Color)
  | bind_program (prog : Program)
  | bind_array_buffer (abuf : ArrayBuffer)
  | bind_attribute (index : Nat) (count : Nat) (offset : Nat) (stride : Nat)
  | bind_frame_buffer (fbo : FrameBuffer)
  | draw (offset : Nat) (count : Nat)
  | create_buffer (data : List Float)
  | create_array_buffer
  | create_shader (kind : Char) (code : List Nat)
  | create_program (shaders : List Shader)
  | swap_buffers

/-- Outcome of one `Server::update` call: the trace of collaborator
invocations in order, the replies sent back over the transport in order,
the requests left undrained in the queue, the final executor state, and
the boolean return value. -/
structure UpdateResult (D : Type) where
  events : List Event
  replies : List Reply
  remaining : List Request
  device : D
  ret : Bool

/-- `pub struct Client { stream: DuplexStream<Request, Reply> }`, with the
stream seen from the client side: the requests sent so far and the queue
of replies available to `recv`. -/
structure Client where
  sent : List Request
  received : List Reply

/-- `pub struct Server<P>`: the incoming request queue and disconnection
flag model the server end of the duplex stream; `graphics_context` and
`device` are the two collaborator states. (The `no_send`/`no_share`
thread-affinity markers have no value-level content and are not modelled.) -/
structure Server (P D : Type) where
  queue : List Request
  disconnected : Bool
  graphics_context : P
  device : D

/-- The drain loop body of `Server::update` (`mod.rs` lines 134–176),
recursing on the queued requests: each arm mirrors one `match` arm of the
source. `Err(Empty)`/`Err(Disconnected)` arise when the queue is exhausted,
according to the `disconnected` flag. After a `break` (end-frame or empty)
the source falls through to `swap_buffers()` and returns `true`. -/
def updateLoop {D : Type} (ops : DeviceOps D) :
    List Request → Bool → D → UpdateResult D
  | [], disconnected, d =>
    if disconnected then
      -- Err(comm::Disconnected) => return false
      ⟨[], [], [], d, false⟩
    else
      -- Err(comm::Empty) => break; then swap_buffers(); true
      ⟨[.swap_buffers], [], [], d, true⟩
  | CastClear color :: rest, disc, d =>
    let r := updateLoop ops rest disc (ops.clear d color)
    { r with events := .clear color :: r.events }
  | CastBindProgram prog :: rest, disc, d =>
    let r := updateLoop ops rest disc (ops.bind_program d prog)
    { r with events := .bind_program prog :: r.events }
  | CastBindArrayBuffer abuf :: rest, disc, d =>
    let r := updateLoop ops rest disc (ops.bind_array_buffer d abuf)
    { r with events := .bind_array_buffer abuf :: r.events }
  | CastBindAttribute index _buf count offset stride :: rest, disc, d =>
    -- self.device.bind_attribute(index, count as u32, offset, stride):
    -- the buffer handle in the request is discarded
    let r := updateLoop ops rest disc (ops.bind_attribute d index count offset stride)
    { r with events := .bind_attribute index count offset stride :: r.events }
  | CastBindFrameBuffer fbo :: rest, disc, d =>
    let r := updateLoop ops rest disc (ops.bind_frame_buffer d fbo)
    { r with events := .bind_frame_buffer fbo :: r.events }
  | CastDraw offset count :: rest, disc, d =>
    let r := updateLoop ops rest disc (ops.draw d offset count)
    { r with events := .draw offset count :: r.events }
  | CastSwapBuffers :: rest, _disc, d =>
    -- Ok(CastSwapBuffers) => break; then swap_buffers(); true
    ⟨[.swap_buffers], [], rest, d, true⟩
  | CallNewBuffer data :: rest, disc, d =>
    let p := ops.create_buffer d data
    let r := updateLoop ops rest disc p.2
    { r with events := .create_buffer data :: r.events,
             replies := ReplyNewBuffer p.1 :: r.replies }
  | CallNewArrayBuffer :: rest, disc, d =>
    let p := ops.create_array_buffer d
    let r := updateLoop ops rest disc p.2
    { r with events := .create_array_buffer :: r.events,
             replies := ReplyNewArrayBuffer p.1 :: r.replies }
  | CallNewShader kind code :: rest, disc, d =>
    let p := ops.create_shader d kind code
    let r := updateLoop ops rest disc p.2
    { r with events := .create_shader kind code :: r.events,
             replies := ReplyNewShader p.1 :: r.replies }
  | CallNewProgram code :: rest, disc, d =>
    let p := ops.create_program d code
    let r := updateLoop ops rest disc p.2
    { r with events := .create_program code :: r.events,
             replies := ReplyNewProgram p.1 :: r.replies }

/-- `Server::update` (`mod.rs` lines 132–179). -/
def Server.update {P D : Type} (ops : DeviceOps D) (s : Server P D) :
    UpdateResult D :=
  updateLoop ops s.queue s.disconnected s.device

/-- Client cast method `clear`: `self.stream.send(CastClear(color))`. -/
def Client.clear (c : Client) (color : Color) : Client :=
  { c with sent := c.sent ++ [CastClear color] }

/-- Client cast method `bind_program`. -/
def Client.bind_program (c : Client) (prog : Program) : Client :=
  { c with sent := c.sent ++ [CastBindProgram prog] }

/-- Client cast method `bind_array_buffer`. -/
def Client.bind_array_buffer (c : Client) (abuf : ArrayBuffer) : Client :=
  { c with sent := c.sent ++ [CastBindArrayBuffer abuf] }

/-- Client cast method `bind_attribute`. -/
def Client.bind_attribute (c : Client) (index : Nat) (buf : Buffer)
    (count : VertexCount) (offset : Nat) (stride : Nat) : Client :=
  { c with sent := c.sent ++ [CastBindAttribute index buf count offset stride] }

/-- Client cast method `bind_frame_buffer`. -/
def Client.bind_frame_buffer (c : Client) (fbo : FrameBuffer) : Client :=
  { c with sent := c.sent ++ [CastBindFrameBuffer fbo] }

/-- Client cast method `draw`. -/
def Client.draw (c : Client) (offset : VertexCount) (count : VertexCount) : Client :=
  { c with sent := c.sent ++ [CastDraw offset count] }

/-- Client cast method `end_frame`: `self.stream.send(CastSwapBuffers)`. -/
def Client.end_frame (c : Client) : Client :=
  { c with sent := c.sent ++ [CastSwapBuffers] }

/-- Client call method `new_shader`: sends `CallNewShader(kind, code)`,
then blocks in `recv()`; `r` is the reply that `recv` eventually yields.
A non-matching variant hits `fail!("unexpected device reply")`, modelled
as `Except.error`. -/
def Client.new_shader (c : Client) (kind : Char) (code : List Nat)
    (r : Reply) : Except String (Shader × Client) :=
  let c1 := { c with sent := c.sent ++ [CallNewShader kind code] }
  match r with
  | ReplyNewShader name => .ok (name, c1)
  | _ => .error "unexpected device reply"

/-- Client call method `new_program` (same shape as `new_shader`). -/
def Client.new_program (c : Client) (shaders : List Shader)
    (r : Reply) : Except String (Program × Client) :=
  let c1 := { c with sent := c.sent ++ [CallNewProgram shaders] }
  match r with
  | ReplyNewProgram name => .ok (name, c1)
  | _ => .error "unexpected device reply"

/-- Client call method `new_buffer` (same shape as `new_shader`). -/
def Client.new_buffer (c : Client) (data : List Float)
    (r : Reply) : Except String (Buffer × Client) :=
  let c1 := { c with sent := c.sent ++ [CallNewBuffer data] }
  match r with
  | ReplyNewBuffer name => .ok (name, c1)
  | _ => .error "unexpected device reply"

/-- Client call method `new_array_buffer` (same shape as `new_shader`). -/
def Client.new_array_buffer (c : Client)
    (r : Reply) : Except String (ArrayBuffer × Client) :=
  let c1 := { c with sent := c.sent ++ [CallNewArrayBuffer] }
  match r with
  | ReplyNewArrayBuffer name => .ok (name, c1)
  | _ => .error "unexpected device reply"

/-- `#[deriving(Show)] pub enum InitError {}` — an enum with no variants. -/
inductive InitError where

/-- `pub fn init<Api, P: GraphicsContext<Api>>(graphics_context, options)`:
builds the duplex stream pair (both queues empty, connected), constructs
the device via the external `Device::new(options)` (passed in as `devNew`,
the backend being an external collaborator), and returns `Ok((client,
server))`. -/
def init {Opt P D : Type} (devNew : Opt → D) (graphics_context : P)
    (options : Opt) : Except InitError (Client × Server P D) :=
  let client : Client := { sent := [], received := [] }
  let dev := devNew options
  let server : Server P D :=
    { queue := [], disconnected := false,
      graphics_context := graphics_context, device := dev }
  .ok (client, server)

/-! ### Derived notions used to state the specification claims -/

/-- Is this request the end-frame marker? -/
def isSwapReq : Request → Bool
  | CastSwapBuffers => true
  | _ => false

/-- Is this request a Call (reply-expecting) command? -/
def isCallReq : Request → Bool
  | CallNewBuffer _ => true
  | CallNewArrayBuffer => true
  | CallNewShader _ _ => true
  | CallNewProgram _ => true
  | _ => false

/-- Is this request a Cast (one-way) command? -/
def isCastReq (q : Request) : Bool := !isCallReq q

/-- The collaborator invocation that dispatching one request produces
(for `CastSwapBuffers` the presentational `swap_buffers`). -/
def eventOf : Request → Event
  | CallNewBuffer data => .create_buffer data
  | CallNewArrayBuffer => .create_array_buffer
  | CallNewShader kind code => .create_shader kind code
  | CallNewProgram shaders => .create_program shaders
  | CastClear color => .clear color
  | CastBindProgram prog => .bind_program prog
  | CastBindArrayBuffer abuf => .bind_array_buffer abuf
  | CastBindAttribute index _buf count offset stride =>
      .bind_attribute index count offset stride
  | CastBindFrameBuffer fbo => .bind_frame_buffer fbo
  | CastDraw offset count => .draw offset count
  | CastSwapBuffers => .swap_buffers

/-- How dispatching one request evolves the abstract executor state. -/
def devStep {D : Type} (ops : DeviceOps D) (d : D) : Request → D
  | CallNewBuffer data => (ops.create_buffer d data).2
  | CallNewArrayBuffer => (ops.create_array_buffer d).2
  | CallNewShader kind code => (ops.create_shader d kind code).2
  | CallNewProgram shaders => (ops.create_program d shaders).2
  | CastClear color => ops.clear d color
  | CastBindProgram prog => ops.bind_program d prog
  | CastBindArrayBuffer abuf => ops.bind_array_buffer d abuf
  | CastBindAttribute index _buf count offset stride =>
      ops.bind_attribute d index count offset stride
  | CastBindFrameBuffer fbo => ops.bind_frame_buffer d fbo
  | CastDraw offset count => ops.draw d offset count
  | CastSwapBuffers => d

/-- The reply-variant tags, for stating call/reply pairing. -/
inductive ReplyTag where
  | buffer
  | arrayBuffer
  | shader
  | program
  deriving DecidableEq, Repr

/-- Tag of a reply. -/
def replyTag : Reply → ReplyTag
  | ReplyNewBuffer _ => .buffer
  | ReplyNewArrayBuffer _ => .arrayBuffer
  | ReplyNewShader _ => .shader
  | ReplyNewProgram _ => .program

/-- Tag of the reply a Call command expects (`none` for Casts). -/
def callTag : Request → Option ReplyTag
  | CallNewBuffer _ => some .buffer
  | CallNewArrayBuffer => some .arrayBuffer
  | CallNewShader _ _ => some .shader
  | CallNewProgram _ => some .program
  | _ => none

/-- Is this event the graphics context's `swap_buffers` call? -/
def isSwapEvent : Event → Bool
  | .swap_buffers => true
  | _ => false

/-- The replies a drained request sequence produces, in order: one reply
per Call command, wrapping the handle the executor mints at that point;
Cast commands contribute nothing. -/
def repliesOf {D : Type} (ops : DeviceOps D) : D → List Request → List Reply
  | _, [] => []
  | d, q :: rest =>
    (match q with
      | CallNewBuffer data => [ReplyNewBuffer (ops.create_buffer d data).1]
      | CallNewArrayBuffer => [ReplyNewArrayBuffer (ops.create_array_buffer d).1]
      | CallNewShader kind code => [ReplyNewShader (ops.create_shader d kind code).1]
      | CallNewProgram shaders => [ReplyNewProgram (ops.create_program d shaders).1]
      | _ => []) ++ repliesOf ops (devStep ops d q) rest

/-- A concrete device executor instance for evaluating the model: the
state is a counter and every creation operation mints the next handle. -/
def natOps : DeviceOps Nat where
  clear := fun d _ => d
  bind_program := fun d _ => d
  bind_array_buffer := fun d _ => d
  bind_attribute := fun d _ _ _ _ => d
  bind_frame_buffer := fun d _ => d
  draw := fun d _ _ => d
  create_buffer := fun d _ => (d, d + 1)
  create_array_buffer := fun d => (d, d + 1)
  create_shader := fun d _ _ => (d, d + 1)
  create_program := fun d _ => (d, d + 1)

/-! ### Drain-loop lemmas -/

/-- Dispatching a non-end-frame request never records the presentation call. -/
theorem isSwapEvent_eventOf {r : Request} (h : isSwapReq r = false) :
    isSwapEvent (eventOf r) = false := by
  cases r <;> simp_all [isSwapReq, eventOf, isSwapEvent]

/-- A drained prefix consisting only of Cast commands produces no replies. -/
theorem repliesOf_cast_only {D : Type} (ops : DeviceOps D) (q : List Request)
    (d : D) (h : ∀ r ∈ q, isCastReq r = true) : repliesOf ops d q = [] := by
  induction q generalizing d with
  | nil => rfl
  | cons r rest ih =>
    have hr := h r (List.mem_cons_self ..)
    have hrest := fun x hx => h x (List.mem_cons_of_mem _ hx)
    cases r <;> simp_all [repliesOf, isCastReq, isCallReq]

/-- The drain loop on a queue whose drained prefix ends at an end-frame
marker: everything before the marker is dispatched in order, the replies
are those of the prefix, everything after the marker is left queued, and
the call ends with the presentation event and returns `true`. -/
theorem updateLoop_swap_split {D : Type} (ops : DeviceOps D)
    (pre post : List Request) (disc : Bool) (d : D)
    (h : ∀ r ∈ pre, isSwapReq r = false) :
    updateLoop ops (pre ++ Request.CastSwapBuffers :: post) disc d =
      ⟨pre.map eventOf ++ [.swap_buffers], repliesOf ops d pre, post,
       pre.foldl (devStep ops) d, true⟩ := by
  induction pre generalizing d with
  | nil => simp [updateLoop, repliesOf]
  | cons q rest ih =>
    have hq := h q (List.mem_cons_self ..)
    have hrest := fun x hx => h x (List.mem_cons_of_mem _ hx)
    cases q <;> simp_all [updateLoop, eventOf, devStep, repliesOf, isSwapReq]

/-- The drain loop on a queue containing no end-frame marker: everything
is dispatched in order, then the queue is exhausted and the loop ends via
`Empty` (presentation, `true`) or `Disconnected` (no presentation,
`false`) according to the transport state. -/
theorem updateLoop_no_swap {D : Type} (ops : DeviceOps D) (q : List Request)
    (disc : Bool) (d : D) (h : ∀ r ∈ q, isSwapReq r = false) :
    updateLoop ops q disc d =
      ⟨q.map eventOf ++ (if disc then [] else [.swap_buffers]),
       repliesOf ops d q, [], q.foldl (devStep ops) d, !disc⟩ := by
  induction q generalizing d with
  | nil => cases disc <;> simp [updateLoop, repliesOf]
  | cons r rest ih =>
    have hr := h r (List.mem_cons_self ..)
    have hrest := fun x hx => h x (List.mem_cons_of_mem _ hx)
    cases r <;> simp_all [updateLoop, eventOf, devStep, repliesOf, isSwapReq]

/-- The reply variants sent by one drain equal, in order, the expected
variants of the Call commands in the drained prefix (the prefix up to the
first end-frame marker); Cast commands contribute none. -/
theorem updateLoop_replies_tag {D : Type} (ops : DeviceOps D)
    (q : List Request) (disc : Bool) (d : D) :
    (updateLoop ops q disc d).replies.map replyTag =
      (q.takeWhile fun r => !isSwapReq r).filterMap callTag := by
  induction q generalizing d with
  | nil => cases disc <;> simp [updateLoop]
  | cons r rest ih =>
    cases r <;> simp_all [updateLoop, isSwapReq, callTag, replyTag]

/-- Every drain either returns `true` having recorded exactly one
presentation call, or returns `false` (the transport was disconnected)
having recorded none. -/
theorem updateLoop_swap_count {D : Type} (ops : DeviceOps D)
    (q : List Request) (disc : Bool) (d : D) :
    ((updateLoop ops q disc d).ret = true ∧
       (updateLoop ops q disc d).events.countP isSwapEvent = 1) ∨
    ((updateLoop ops q disc d).ret = false ∧
       (updateLoop ops q disc d).events.countP isSwapEvent = 0 ∧
       disc = true) := by
  induction q generalizing d with
  | nil => cases disc <;> simp [updateLoop, isSwapEvent]
  | cons r rest ih =>
    cases r <;> simp_all [updateLoop, isSwapEvent, List.countP_cons]

/-! ### The specification claims -/

/-- C1 (counterexample): an `update` whose drain loop observes an empty
queue (connected transport) returns `true` but DOES invoke `swap_buffers`
on the graphics-context collaborator — the source breaks out of the loop
on `Err(Empty)` and falls through to `self.graphics_context.swap_buffers()`,
so the claim that no presentation call happens is false. -/
theorem C1_counterexample :
    (Server.update natOps ⟨[], false, (), 0⟩).ret = true ∧
    (Server.update natOps ⟨[], false, (), 0⟩).events = [Event.swap_buffers] :=
  ⟨rfl, rfl⟩

/-- C1 (amended): an `update` whose drain loop observes an empty queue
(connected transport) before any end-frame command returns `true`,
dispatches nothing to the device executor and sends no replies, but still
invokes `swap_buffers` on the graphics-context collaborator exactly once. -/
theorem C1_empty_queue_update {P D : Type} (ops : DeviceOps D) (ctx : P) (d : D) :
    Server.update ops ⟨[], false, ctx, d⟩ =
      ⟨[Event.swap_buffers], [], [], d, true⟩ := rfl

/-- C2: over any drained queue, each Call command causes exactly one
Reply of the matching variant, replies appear in the order of their
originating Calls, and Cast commands cause no Reply: the reply-variant
trace equals the expected-variant trace of the Calls in the drained
prefix. -/
theorem C2_call_reply_pairing {P D : Type} (ops : DeviceOps D)
    (q : List Request) (disc : Bool) (ctx : P) (d : D) :
    (Server.update ops ⟨q, disc, ctx, d⟩).replies.map replyTag =
      (q.takeWhile fun r => !isSwapReq r).filterMap callTag :=
  updateLoop_replies_tag ops q disc d

/-- C3: for a queue of cast-style commands followed by exactly one
end-frame, a single `update` dispatches each cast exactly once, in send
order, sends no replies, then invokes `swap_buffers` exactly once (the
final event) and returns `true`. -/
theorem C3_casts_then_end_frame {P D : Type} (ops : DeviceOps D)
    (casts : List Request) (ctx : P) (d : D)
    (h : ∀ c ∈ casts, isCastReq c = true ∧ isSwapReq c = false) :
    Server.update ops ⟨casts ++ [Request.CastSwapBuffers], false, ctx, d⟩ =
      ⟨casts.map eventOf ++ [Event.swap_buffers], [], [],
       casts.foldl (devStep ops) d, true⟩ := by
  have hsplit := updateLoop_swap_split ops casts [] false d
    (fun r hr => (h r hr).2)
  have hrep := repliesOf_cast_only ops casts d (fun r hr => (h r hr).1)
  simp [Server.update, hsplit, hrep]

/-- C3 witness at a concrete queue. -/
theorem C3_witness :
    Server.update natOps
        ⟨[Request.CastBindProgram 1, Request.CastDraw 0 3,
          Request.CastSwapBuffers], false, (), 0⟩ =
      ⟨[Event.bind_program 1, Event.draw 0 3, Event.swap_buffers],
       [], [], 0, true⟩ :=
  C3_casts_then_end_frame natOps
    [Request.CastBindProgram 1, Request.CastDraw 0 3] () 0 (by decide)

/-- C4: when the non-blocking receive reports the transport disconnected
(the queue is exhausted — here after draining a swap-free queue — and the
transport flag is down), `update` returns `false`, dispatches only what
was queued before the observation, and never invokes `swap_buffers` in
that call. -/
theorem C4_disconnect_returns_false {P D : Type} (ops : DeviceOps D)
    (q : List Request) (ctx : P) (d : D)
    (h : ∀ r ∈ q, isSwapReq r = false) :
    (Server.update ops ⟨q, true, ctx, d⟩).ret = false ∧
    (Server.update ops ⟨q, true, ctx, d⟩).events = q.map eventOf ∧
    (Server.update ops ⟨q, true, ctx, d⟩).events.countP isSwapEvent = 0 := by
  have hn := updateLoop_no_swap ops q true d h
  refine ⟨?_, ?_, ?_⟩ <;> simp [Server.update, hn]
  exact fun r hr => isSwapEvent_eventOf (h r hr)

/-- C4 witness at a concrete disconnected transport. -/
theorem C4_witness :
    (Server.update natOps ⟨[Request.CastDraw 0 3], true, (), 0⟩).ret = false ∧
    (Server.update natOps ⟨[Request.CastDraw 0 3], true, (), 0⟩).events =
      [Event.draw 0 3] ∧
    (Server.update natOps
        ⟨[Request.CastDraw 0 3], true, (), 0⟩).events.countP isSwapEvent = 0 :=
  C4_disconnect_returns_false natOps [Request.CastDraw 0 3] () 0 (by decide)

/-- C5: on draining an end-frame command, `update` stops there: every
command queued after it is left in the queue undispatched (the events are
exactly those of the prefix), and the current call proceeds to the
presentation call and returns `true`. -/
theorem C5_end_frame_stops_drain {P D : Type} (ops : DeviceOps D)
    (pre post : List Request) (disc : Bool) (ctx : P) (d : D)
    (h : ∀ r ∈ pre, isSwapReq r = false) :
    Server.update ops ⟨pre ++ Request.CastSwapBuffers :: post, disc, ctx, d⟩ =
      ⟨pre.map eventOf ++ [Event.swap_buffers], repliesOf ops d pre, post,
       pre.foldl (devStep ops) d, true⟩ :=
  updateLoop_swap_split ops pre post disc d h

/-- C5 witness: a command queued after the end-frame survives the call. -/
theorem C5_witness :
    Server.update natOps
        ⟨[Request.CastDraw 0 3, Request.CastSwapBuffers,
          Request.CastBindProgram 5], false, (), 0⟩ =
      ⟨[Event.draw 0 3, Event.swap_buffers], [],
       [Request.CastBindProgram 5], 0, true⟩ :=
  C5_end_frame_stops_drain natOps [Request.CastDraw 0 3]
    [Request.CastBindProgram 5] false () 0 (by decide)

/-- C6: each call-style Client operation, upon receiving a Reply that is
not of the matching variant, aborts fatally (`fail!("unexpected device
reply")`, modelled as `Except.error`) instead of returning a value. -/
theorem C6_reply_mismatch_fatal (c : Client) (r : Reply) :
    (∀ kind code, replyTag r ≠ ReplyTag.shader →
      Client.new_shader c kind code r = .error "unexpected device reply") ∧
    (∀ shaders, replyTag r ≠ ReplyTag.program →
      Client.new_program c shaders r = .error "unexpected device reply") ∧
    (∀ data, replyTag r ≠ ReplyTag.buffer →
      Client.new_buffer c data r = .error "unexpected device reply") ∧
    (replyTag r ≠ ReplyTag.arrayBuffer →
      Client.new_array_buffer c r = .error "unexpected device reply") := by
  refine ⟨?_, ?_, ?_, ?_⟩ <;> cases r <;>
    simp [Client.new_shader, Client.new_program, Client.new_buffer,
      Client.new_array_buffer, replyTag]

/-- C6 witness: `new_shader` receiving a buffer reply aborts. -/
theorem C6_witness :
    Client.new_shader ⟨[], []⟩ 'v' [] (Reply.ReplyNewBuffer 0) =
      .error "unexpected device reply" :=
  (C6_reply_mismatch_fatal ⟨[], []⟩ (Reply.ReplyNewBuffer 0)).1 'v' []
    (by decide)

/-- C7: each cast-style Client operation appends exactly one command to
the transport — the Cast variant of that operation carrying exactly its
arguments — reads no reply (the received queue is untouched), and returns
no result (only the updated stream state). -/
theorem C7_cast_ops_send_one (c : Client) (color : Color) (prog : Program)
    (abuf : ArrayBuffer) (index : Nat) (buf : Buffer) (count : VertexCount)
    (offset : Nat) (stride : Nat) (fbo : FrameBuffer)
    (doff dcnt : VertexCount) :
    Client.clear c color =
      ⟨c.sent ++ [Request.CastClear color], c.received⟩ ∧
    Client.bind_program c prog =
      ⟨c.sent ++ [Request.CastBindProgram prog], c.received⟩ ∧
    Client.bind_array_buffer c abuf =
      ⟨c.sent ++ [Request.CastBindArrayBuffer abuf], c.received⟩ ∧
    Client.bind_attribute c index buf count offset stride =
      ⟨c.sent ++ [Request.CastBindAttribute index buf count offset stride],
       c.received⟩ ∧
    Client.bind_frame_buffer c fbo =
      ⟨c.sent ++ [Request.CastBindFrameBuffer fbo], c.received⟩ ∧
    Client.draw c doff dcnt =
      ⟨c.sent ++ [Request.CastDraw doff dcnt], c.received⟩ ∧
    Client.end_frame c = ⟨c.sent ++ [Request.CastSwapBuffers], c.received⟩ :=
  ⟨rfl, rfl, rfl, rfl, rfl, rfl, rfl⟩

/-- C8: `init` always returns `Ok` with the bound pair — fresh connected
streams, the given graphics context and the device built from the options
— and the `Err` branch is unreachable because `InitError` has no
variants. -/
theorem C8_init_always_ok {Opt P D : Type} (devNew : Opt → D) (ctx : P)
    (opts : Opt) :
    init devNew ctx opts =
      .ok (⟨[], []⟩, ⟨[], false, ctx, devNew opts⟩) ∧
    ∀ e : InitError, False :=
  ⟨rfl, fun e => by cases e⟩

/-- C9: draining a `CastBindAttribute(index, buf, count, offset, stride)`
invokes the executor's `bind_attribute` with only `(index, count, offset,
stride)`; the buffer handle is discarded — the whole result of `update`
is independent of it. -/
theorem C9_bind_attribute_discards_buffer {P D : Type} (ops : DeviceOps D)
    (index : Nat) (buf buf' : Buffer) (count : VertexCount)
    (offset stride : Nat) (rest : List Request) (disc : Bool) (ctx : P)
    (d : D) :
    (Server.update ops
        ⟨Request.CastBindAttribute index buf count offset stride :: rest,
         disc, ctx, d⟩).events.head? =
      some (Event.bind_attribute index count offset stride) ∧
    Server.update ops
        ⟨Request.CastBindAttribute index buf count offset stride :: rest,
         disc, ctx, d⟩ =
      Server.update ops
        ⟨Request.CastBindAttribute index buf' count offset stride :: rest,
         disc, ctx, d⟩ := by
  constructor
  · simp [Server.update, updateLoop]
  · rfl

/-- C10: every `update` call either returns `true` having invoked
`swap_buffers` exactly once (whenever disconnection is not observed,
including on an initially empty queue), or observed disconnection and
returned `false` having invoked it never. -/
theorem C10_swap_buffers_every_update {P D : Type} (ops : DeviceOps D)
    (q : List Request) (disc : Bool) (ctx : P) (d : D) :
    ((Server.update ops ⟨q, disc, ctx, d⟩).ret = true ∧
       (Server.update ops ⟨q, disc, ctx, d⟩).events.countP isSwapEvent = 1) ∨
    ((Server.update ops ⟨q, disc, ctx, d⟩).ret = false ∧
       (Server.update ops ⟨q, disc, ctx, d⟩).events.countP isSwapEvent = 0 ∧
       disc = true) :=
  updateLoop_swap_count ops q disc d

end Gfx
